import Mathlib

/-!
Verification development for the TQQQ monthly rebalancing script
(`tqqq_tasty.py`).  The Python source is shallowly embedded: pure
computations become Lean functions over `ℚ`/`ℕ`/`ℤ`; the fallible
share-sizing division becomes an `Except`; the token cache, the
injected trading calendar and the run-level control flow become
explicit state passing over small structures.
-/

namespace TqqqTasty

/-! ## Rebalance policy (`rebalance`, lines 167-200)

The Python function fetches `(quantity, _, current_price)` from
`get_position` and then performs a pure computation on those numbers
together with the module-level constant `fixed_allocation = 2000`.
We embed that pure computation, with the fetched numbers as
parameters.  Python's `int(x)` truncates toward zero (`pyInt`), and
`abs(value_difference) / current_price` raises `ZeroDivisionError`
when `current_price` is zero, hence the `Except`. -/

inductive Action
  | buy
  | sell
deriving DecidableEq, Repr

inductive PyErr
  | zeroDivision
deriving DecidableEq, Repr

/-- `fixed_allocation = 2000  # dollar value of my fixed allocation to TQQQ.` -/
def fixed_allocation : ℚ := 2000

/-- Python `int(x)` applied to a real number: truncation toward zero. -/
def pyInt (x : ℚ) : ℤ :=
  if 0 ≤ x then ⌊x⌋ else -⌊-x⌋

/-- Embedding of `rebalance` (the decision logic after the position
fetch).  Returns `(action, shares_to_trade)` where `none` stands for
Python's `None` ("no trade needed"). -/
def rebalance (quantity current_price : ℚ) : Except PyErr (Option Action × ℤ) :=
  let current_value := |quantity| * current_price
  let value_difference := fixed_allocation - current_value
  if current_price = 0 then
    Except.error PyErr.zeroDivision
  else
    let shares_to_trade := pyInt (|value_difference| / current_price)
    if shares_to_trade = 0 then
      Except.ok (none, 0)
    else if 0 < value_difference then
      Except.ok (some Action.buy, shares_to_trade)
    else
      Except.ok (some Action.sell, shares_to_trade)

example : rebalance 0 100 = Except.ok (some Action.buy, 20) := by
  norm_num [rebalance, pyInt, fixed_allocation]
example : rebalance 10 220 = Except.ok (none, 0) := by
  norm_num [rebalance, pyInt, fixed_allocation]
example : rebalance (-5) 300 = Except.ok (some Action.buy, 1) := by
  norm_num [rebalance, pyInt, fixed_allocation]
example : rebalance 0 0 = Except.error PyErr.zeroDivision := by
  norm_num [rebalance]

/-! ## Session manager (`get_session_token`, lines 53-114)

State passing makes the shelve store, the wall clock and the single
HTTP interaction explicit.  Time is modelled in seconds (`ℕ`).  The
cached token participates in Python truthiness: `if session_token and
token_expiry and datetime.now() < token_expiry` treats both `None`
and the empty string as invalid.  The relevant `logger` calls are
recorded as structured log events so that the information carried on
the failure path (status code, response body) is observable. -/

structure Store where
  session_token : Option String
  token_expiry : Option ℕ
deriving DecidableEq, Repr

/-- The single `requests.post(url, ...)` interaction of one call:
its status code, the token at `data['data']['session-token']`, and
the raw `response.text`. -/
structure AuthResponse where
  status_code : ℕ
  token : String
  text : String
deriving DecidableEq, Repr

inductive LogMsg
  | foundExistingToken (tok : String)
  | willExpireAt (exp : ℕ)
  | generatingNewToken
  | receivedToken (status : ℕ)
  | storedToken
  | requestFailed (status : ℕ)
  | responseBody (text : String)
deriving DecidableEq, Repr

structure AuthOutcome where
  result : Option String
  store : Store
  network_calls : ℕ
  log : List LogMsg
deriving Repr

/-- Python truthiness of the cached token: `None` and `""` are falsy. -/
def token_truthy : Option String → Bool
  | none => false
  | some s => s ≠ ""

/-- The cache-hit test `session_token and token_expiry and
datetime.now() < token_expiry` (a `datetime` is always truthy). -/
def cache_valid (store : Store) (now : ℕ) : Bool :=
  token_truthy store.session_token &&
    match store.token_expiry with
    | none => false
    | some exp => now < exp

/-- `timedelta(hours=24)` in seconds. -/
def hours24 : ℕ := 24 * 3600

/-- Embedding of `get_session_token`: reads the store; on a cache hit
returns the cached token with no network call; otherwise posts once to
the sessions endpoint and either persists token + expiry (status 201)
or returns `None` leaving the store untouched. -/
def get_session_token (store : Store) (now : ℕ) (resp : AuthResponse) : AuthOutcome :=
  if cache_valid store now then
    { result := store.session_token
      store := store
      network_calls := 0
      log := [LogMsg.foundExistingToken (store.session_token.getD ""),
              LogMsg.willExpireAt (store.token_expiry.getD 0)] }
  else if resp.status_code = 201 then
    let new_session_token := resp.token
    let new_token_expiry := now + hours24
    { result := some new_session_token
      store := { session_token := some new_session_token
                 token_expiry := some new_token_expiry }
      network_calls := 1
      log := [LogMsg.generatingNewToken, LogMsg.receivedToken resp.status_code,
              LogMsg.storedToken] }
  else
    { result := none
      store := store
      network_calls := 1
      log := [LogMsg.generatingNewToken, LogMsg.requestFailed resp.status_code,
              LogMsg.responseBody resp.text] }

/-! ## Position reader (`get_position`, lines 119-163)

The holdings list returned by the positions endpoint is the
parameter; the function mirrors the loop searching for the first item
whose `symbol` is `"TQQQ"` and the signed-quantity / PnL derivation. -/

structure Holding where
  symbol : String
  quantity : ℚ
  quantity_direction : String
  average_open_price : ℚ
  close_price : ℚ
  multiplier : ℚ
deriving DecidableEq, Repr

/-- Embedding of `get_position` applied to the decoded
`positions["data"]["items"]` list.  Returns
`(quantity, unrealized_pnl, close_price)`. -/
def get_position (items : List Holding) : ℚ × ℚ × ℚ :=
  match items.find? (fun p => p.symbol == "TQQQ") with
  | none => (0, 0, 0)
  | some tqqq_position =>
    let quantity0 := tqqq_position.quantity
    let quantity :=
      if tqqq_position.quantity_direction = "Short" then -quantity0 else quantity0
    let unrealized0 :=
      (tqqq_position.close_price - tqqq_position.average_open_price) *
        |quantity| * tqqq_position.multiplier
    let unrealized_pnl := if quantity < 0 then -unrealized0 else unrealized0
    (quantity, unrealized_pnl, tqqq_position.close_price)

/-! ## Order pricing (`execute_order`, lines 204-253)

The claims concern the limit-price computation:
`price_adjustment = 1.005 if action == "BUY" else 0.995` and
`limit_price = round(current_price * price_adjustment, 2)`.
Python's `round` is round-half-to-even, embedded exactly on `ℚ`. -/

def price_adjustment (action : Action) : ℚ :=
  if action = Action.buy then 1.005 else 0.995

/-- Round-half-to-even to the nearest integer (Python's `round`). -/
def roundHalfEven (x : ℚ) : ℤ :=
  if x - ⌊x⌋ < 1/2 then ⌊x⌋
  else if 1/2 < x - ⌊x⌋ then ⌊x⌋ + 1
  else if ⌊x⌋ % 2 = 0 then ⌊x⌋ else ⌊x⌋ + 1

/-- Python `round(x, 2)`. -/
def round2 (x : ℚ) : ℚ := (roundHalfEven (x * 100) : ℚ) / 100

/-- The limit price submitted by `execute_order` for an observed
current price. -/
def limit_price (action : Action) (current_price : ℚ) : ℚ :=
  round2 (current_price * price_adjustment action)

/-! ## Schedule gate (`is_last_trading_day`, lines 370-395)

Dates are proleptic-Gregorian `(year, month, day)` triples; the
trading calendar (`pandas_market_calendars`' NYSE calendar in the
source) is injected as a predicate `Date → Bool`.  `valid_days`
enumerates the inclusive range of calendar dates and filters by the
calendar, matching `nyse.valid_days(start_date=today,
end_date=next_month)`.  The enumeration carries fuel; 40 covers any
range from a day of one month to the first day of the next. -/

structure Date where
  year : ℕ
  month : ℕ
  day : ℕ
deriving DecidableEq, Repr

def isLeapYear (y : ℕ) : Bool :=
  (y % 4 == 0 && y % 100 != 0) || y % 400 == 0

/-- `calendar.monthrange(y, m)[1]`: number of days in the month. -/
def monthrange (y m : ℕ) : ℕ :=
  if m = 2 then (if isLeapYear y then 29 else 28)
  else if m = 4 || m = 6 || m = 9 || m = 11 then 30
  else 31

def nextDate (d : Date) : Date :=
  if d.day < monthrange d.year d.month then ⟨d.year, d.month, d.day + 1⟩
  else if d.month < 12 then ⟨d.year, d.month + 1, 1⟩
  else ⟨d.year + 1, 1, 1⟩

/-- Inclusive enumeration of calendar dates from `start` to `stop`,
with fuel bounding the length. -/
def dateRange : ℕ → Date → Date → List Date
  | 0, _, _ => []
  | fuel + 1, start, stop =>
    if start = stop then [start]
    else start :: dateRange fuel (nextDate start) stop

/-- `next_month` in the source: the first day of the month after
`today`'s month. -/
def next_month_first (today : Date) : Date :=
  if today.month = 12 then ⟨today.year + 1, 1, 1⟩
  else ⟨today.year, today.month + 1, 1⟩

/-- `nyse.valid_days(start_date, end_date)`: the valid trading days
in the inclusive range, in calendar order. -/
def valid_days (cal : Date → Bool) (start stop : Date) : List Date :=
  (dateRange 40 start stop).filter cal

/-- Embedding of `is_last_trading_day` with the calendar injected:
`today in trading_days and today == trading_days[-1]` where
`trading_days = valid_days(today, next_month)`. -/
def is_last_trading_day (cal : Date → Bool) (today : Date) : Bool :=
  let trading_days := valid_days cal today (next_month_first today)
  decide (today ∈ trading_days) && decide (trading_days.getLast? = some today)

/-! ## Main control flow (`main`, lines 317-367)

The outcomes of the external steps are injected through an oracle:
the session-token call (which can raise a transport exception or
return a falsy token), the rebalance step (which can raise, e.g.
`ZeroDivisionError`), and the order submission.  `main_run` rebuilds
`main`'s try/except structure as an event trace;
`send_email_update` never raises (its body is wrapped in a
catch-all), so each notifier invocation is one `Event.notify`. -/

inductive Event
  | notify (trade : Bool) (err : Bool)
  | orderSubmit
deriving DecidableEq, Repr

/-- Outcomes of the external interactions of one run of `main`.
`Except.error` stands for an exception escaping that step. -/
structure RunOracle where
  token : Except String (Option String)
  rebalanceResult : Except String (Option Action × ℤ)
  orderResult : Except String String
deriving Repr

/-- `send_email_update`: always exactly one notifier invocation
(internal mail failures are swallowed inside it). -/
def send_email_update (trade : Bool) (err : Bool) : List Event :=
  [Event.notify trade err]

/-- Embedding of `main` as the trace of notifier invocations and
order submissions, one branch per exit path of the source. -/
def main_run (o : RunOracle) : List Event :=
  match o.token with
  | Except.error _ => send_email_update false true
  | Except.ok tok =>
    if token_truthy tok = false then send_email_update false true
    else
      match o.rebalanceResult with
      | Except.error _ => send_email_update false true
      | Except.ok (none, _) => send_email_update false false
      | Except.ok (some _, _) =>
        match o.orderResult with
        | Except.error _ => Event.orderSubmit :: send_email_update false true
        | Except.ok _ => Event.orderSubmit :: send_email_update true false

def isNotify : Event → Bool
  | Event.notify _ _ => true
  | _ => false

/-- A concrete injected trading calendar used to evaluate the
schedule gate: the valid trading days around the April/May 2025
boundary are April 28-30 and May 1-2 (2025-04-30 is a Wednesday,
2025-05-01 a Thursday; both are ordinary NYSE trading days). -/
def demo2025Cal (d : Date) : Bool :=
  decide (d ∈ [(⟨2025, 4, 28⟩ : Date), ⟨2025, 4, 29⟩, ⟨2025, 4, 30⟩,
               ⟨2025, 5, 1⟩, ⟨2025, 5, 2⟩])

/-- The 30 days of April 2025, in calendar order. -/
def april2025 : List Date :=
  (List.range 30).map (fun k => ⟨2025, 4, k + 1⟩)

/-! ## Theorems -/

theorem self_mem_dateRange (fuel : ℕ) (h : fuel ≠ 0) (start stop : Date) :
    start ∈ dateRange fuel start stop := by
  obtain ⟨k, rfl⟩ := Nat.exists_eq_succ_of_ne_zero h
  simp only [dateRange]
  split
  · simp
  · simp

/-- C1: for every quantity and every price strictly greater than zero,
`rebalance` succeeds, computes `shares = ⌊|target - |quantity|·price| / price⌋`,
is a no-op (`none`) exactly when `shares = 0`, buys exactly when the
shares are positive and the difference is positive, and sells exactly
when the shares are positive and the difference is negative. -/
theorem rebalance_decision_spec (q p : ℚ) (hp : 0 < p) :
    ∃ act shares,
      rebalance q p = Except.ok (act, shares) ∧
      shares = ⌊|fixed_allocation - |q| * p| / p⌋ ∧
      (act = none ↔ shares = 0) ∧
      (act = some Action.buy ↔ 0 < shares ∧ 0 < fixed_allocation - |q| * p) ∧
      (act = some Action.sell ↔ 0 < shares ∧ fixed_allocation - |q| * p < 0) := by
  have hp0 : p ≠ 0 := ne_of_gt hp
  have hnn : (0:ℚ) ≤ |fixed_allocation - |q| * p| / p :=
    div_nonneg (abs_nonneg _) hp.le
  have hpy : pyInt (|fixed_allocation - |q| * p| / p)
      = ⌊|fixed_allocation - |q| * p| / p⌋ := by
    unfold pyInt
    rw [if_pos hnn]
  simp only [rebalance]
  rw [if_neg hp0, hpy]
  by_cases h0 : ⌊|fixed_allocation - |q| * p| / p⌋ = 0
  · rw [if_pos h0]
    exact ⟨none, 0, rfl, h0.symm, by simp, by simp, by simp⟩
  · rw [if_neg h0]
    have hspos : 0 < ⌊|fixed_allocation - |q| * p| / p⌋ :=
      lt_of_le_of_ne (Int.floor_nonneg.mpr hnn) (Ne.symm h0)
    by_cases hd : 0 < fixed_allocation - |q| * p
    · rw [if_pos hd]
      refine ⟨some Action.buy, _, rfl, rfl, by simp [h0], ?_, ?_⟩
      · exact ⟨fun _ => ⟨hspos, hd⟩, fun _ => rfl⟩
      · constructor
        · intro hcontra
          simp at hcontra
        · rintro ⟨-, hneg⟩
          exact absurd hd (not_lt.mpr hneg.le)
    · rw [if_neg hd]
      have hdne : fixed_allocation - |q| * p ≠ 0 := by
        intro hz
        apply h0
        rw [hz]
        simp
      have hdlt : fixed_allocation - |q| * p < 0 :=
        lt_of_le_of_ne (not_lt.mp hd) hdne
      refine ⟨some Action.sell, _, rfl, rfl, by simp [h0], ?_, ?_⟩
      · constructor
        · intro hcontra
          simp at hcontra
        · rintro ⟨-, hpos⟩
          exact absurd hpos hd
      · exact ⟨fun _ => ⟨hspos, hdlt⟩, fun _ => rfl⟩

theorem rebalance_decision_spec_witness :
    (0:ℚ) < 100 ∧
    ∃ act shares,
      rebalance 0 100 = Except.ok (act, shares) ∧
      shares = ⌊|fixed_allocation - |(0:ℚ)| * 100| / 100⌋ ∧
      (act = none ↔ shares = 0) ∧
      (act = some Action.buy ↔ 0 < shares ∧ 0 < fixed_allocation - |(0:ℚ)| * 100) ∧
      (act = some Action.sell ↔ 0 < shares ∧ fixed_allocation - |(0:ℚ)| * 100 < 0) :=
  ⟨by norm_num, rebalance_decision_spec 0 100 (by norm_num)⟩

/-- C10: the share-count division in `rebalance` is unguarded: for
every price strictly greater than zero the computation succeeds (the
division-by-zero branch is unreachable), while at price exactly zero
with no position held (so the target of 2000 differs from the current
value of 0) it fails with a division-by-zero error instead of
returning a decision. -/
theorem rebalance_division_unguarded (q p : ℚ) (hp : 0 < p) :
    (∃ r, rebalance q p = Except.ok r) ∧
    rebalance 0 0 = Except.error PyErr.zeroDivision := by
  constructor
  · simp only [rebalance]
    rw [if_neg (ne_of_gt hp)]
    split
    · exact ⟨_, rfl⟩
    · split
      · exact ⟨_, rfl⟩
      · exact ⟨_, rfl⟩
  · norm_num [rebalance]

theorem rebalance_division_unguarded_witness :
    (0:ℚ) < 2 ∧
    ((∃ r, rebalance 1 2 = Except.ok r) ∧
      rebalance 0 0 = Except.error PyErr.zeroDivision) :=
  ⟨by norm_num, rebalance_division_unguarded 1 2 (by norm_num)⟩

/-- C4: with a non-empty cached token and the current time strictly
before the cached expiry, `get_session_token` returns exactly the
cached token, makes no network call, and leaves the store unchanged;
consequently a second call still within the expiry window returns the
same token and also makes zero network calls. -/
theorem get_session_token_cache_hit (store : Store) (now now2 : ℕ)
    (resp resp2 : AuthResponse) (tok : String) (exp : ℕ)
    (htok : store.session_token = some tok) (hne : tok ≠ "")
    (hexp : store.token_expiry = some exp)
    (hnow : now < exp) (hnow2 : now2 < exp) :
    (get_session_token store now resp).result = some tok ∧
    (get_session_token store now resp).network_calls = 0 ∧
    (get_session_token store now resp).store = store ∧
    (get_session_token (get_session_token store now resp).store now2 resp2).result
      = some tok ∧
    (get_session_token (get_session_token store now resp).store now2 resp2).network_calls
      = 0 := by
  have hout : ∀ t r, t < exp →
      (get_session_token store t r).result = some tok ∧
      (get_session_token store t r).network_calls = 0 ∧
      (get_session_token store t r).store = store := by
    intro t r ht
    have hvalid : cache_valid store t = true := by
      simp [cache_valid, token_truthy, htok, hexp, hne, ht]
    simp [get_session_token, hvalid, htok]
  obtain ⟨h1r, h1c, h1s⟩ := hout now resp hnow
  refine ⟨h1r, h1c, h1s, ?_, ?_⟩
  · rw [h1s]
    exact (hout now2 resp2 hnow2).1
  · rw [h1s]
    exact (hout now2 resp2 hnow2).2.1

theorem get_session_token_cache_hit_witness :
    (0 < 100 ∧ 50 < 100 ∧ "tok" ≠ "") ∧
    ((get_session_token ⟨some "tok", some 100⟩ 0 ⟨500, "x", "y"⟩).result = some "tok" ∧
     (get_session_token ⟨some "tok", some 100⟩ 0 ⟨500, "x", "y"⟩).network_calls = 0 ∧
     (get_session_token ⟨some "tok", some 100⟩ 0 ⟨500, "x", "y"⟩).store
       = ⟨some "tok", some 100⟩ ∧
     (get_session_token (get_session_token ⟨some "tok", some 100⟩ 0
         ⟨500, "x", "y"⟩).store 50 ⟨502, "x2", "y2"⟩).result = some "tok" ∧
     (get_session_token (get_session_token ⟨some "tok", some 100⟩ 0
         ⟨500, "x", "y"⟩).store 50 ⟨502, "x2", "y2"⟩).network_calls = 0) :=
  ⟨⟨by decide, by decide, by decide⟩,
    get_session_token_cache_hit ⟨some "tok", some 100⟩ 0 50 ⟨500, "x", "y"⟩
      ⟨502, "x2", "y2"⟩ "tok" 100 rfl (by decide) rfl (by decide) (by decide)⟩

/-- C5: with no valid cached token and a 201 ("created") response,
`get_session_token` extracts the token from the response, persists it
together with an expiry of the current time plus 24 hours, and
returns the new token (making its one network call). -/
theorem get_session_token_fresh_success (store : Store) (now : ℕ)
    (resp : AuthResponse)
    (hmiss : cache_valid store now = false) (h201 : resp.status_code = 201) :
    (get_session_token store now resp).result = some resp.token ∧
    (get_session_token store now resp).store.session_token = some resp.token ∧
    (get_session_token store now resp).store.token_expiry = some (now + hours24) ∧
    (get_session_token store now resp).network_calls = 1 := by
  simp [get_session_token, hmiss, h201]

theorem get_session_token_fresh_success_witness :
    (cache_valid ⟨none, none⟩ 0 = false ∧
      (AuthResponse.mk 201 "newtok" "body").status_code = 201) ∧
    ((get_session_token ⟨none, none⟩ 0 ⟨201, "newtok", "body"⟩).result
       = some "newtok" ∧
     (get_session_token ⟨none, none⟩ 0 ⟨201, "newtok", "body"⟩).store.session_token
       = some "newtok" ∧
     (get_session_token ⟨none, none⟩ 0 ⟨201, "newtok", "body"⟩).store.token_expiry
       = some (0 + hours24) ∧
     (get_session_token ⟨none, none⟩ 0 ⟨201, "newtok", "body"⟩).network_calls = 1) :=
  ⟨⟨by decide, rfl⟩,
    get_session_token_fresh_success ⟨none, none⟩ 0 ⟨201, "newtok", "body"⟩
      (by decide) rfl⟩

/-- C6: with no valid cached token and a non-201 response,
`get_session_token` signals the failure (its result is `None`, and
the logged failure record carries the status code and the response
body) and leaves the credential store completely unchanged. -/
theorem get_session_token_failure_no_write (store : Store) (now : ℕ)
    (resp : AuthResponse)
    (hmiss : cache_valid store now = false) (hbad : resp.status_code ≠ 201) :
    (get_session_token store now resp).result = none ∧
    (get_session_token store now resp).store = store ∧
    LogMsg.requestFailed resp.status_code ∈ (get_session_token store now resp).log ∧
    LogMsg.responseBody resp.text ∈ (get_session_token store now resp).log := by
  simp [get_session_token, hmiss, hbad]

theorem get_session_token_failure_no_write_witness :
    (cache_valid ⟨some "old", none⟩ 7 = false ∧
      (AuthResponse.mk 401 "" "unauthorized").status_code ≠ 201) ∧
    ((get_session_token ⟨some "old", none⟩ 7 ⟨401, "", "unauthorized"⟩).result
       = none ∧
     (get_session_token ⟨some "old", none⟩ 7 ⟨401, "", "unauthorized"⟩).store
       = ⟨some "old", none⟩ ∧
     LogMsg.requestFailed 401
       ∈ (get_session_token ⟨some "old", none⟩ 7 ⟨401, "", "unauthorized"⟩).log ∧
     LogMsg.responseBody "unauthorized"
       ∈ (get_session_token ⟨some "old", none⟩ 7 ⟨401, "", "unauthorized"⟩).log) :=
  ⟨⟨by decide, by decide⟩,
    get_session_token_failure_no_write ⟨some "old", none⟩ 7 ⟨401, "", "unauthorized"⟩
      (by decide) (by decide)⟩

/-- C7: the submitted limit price is the current price times 1.005
for a buy and times 0.995 for a sell, rounded to 2 decimal places; at
current price 100.00 the buy limit is 100.50 and the sell limit
99.50. -/
theorem limit_price_spec :
    (∀ current_price : ℚ,
      limit_price Action.buy current_price = round2 (current_price * 1.005) ∧
      limit_price Action.sell current_price = round2 (current_price * 0.995)) ∧
    limit_price Action.buy 100 = 100.50 ∧
    limit_price Action.sell 100 = 99.50 := by
  have hbuy : price_adjustment Action.buy = 1.005 := rfl
  have hsell : price_adjustment Action.sell = 0.995 := rfl
  refine ⟨fun current_price => ⟨rfl, rfl⟩, ?_, ?_⟩
  · norm_num [limit_price, hbuy, round2, roundHalfEven]
  · norm_num [limit_price, hsell, round2, roundHalfEven]

/-- C8: when the holdings list contains no entry for the tracked
symbol "TQQQ", `get_position` returns quantity 0, unrealized PnL 0
and price 0 as a normal result. -/
theorem get_position_absent (items : List Holding)
    (habs : ∀ pos ∈ items, pos.symbol ≠ "TQQQ") :
    get_position items = (0, 0, 0) := by
  have hfind : items.find? (fun p => p.symbol == "TQQQ") = none := by
    rw [List.find?_eq_none]
    intro x hx
    simpa using habs x hx
  simp [get_position, hfind]

theorem get_position_absent_witness :
    (∀ pos ∈ [Holding.mk "SPY" 1 "Long" 1 1 1], pos.symbol ≠ "TQQQ") ∧
    get_position [Holding.mk "SPY" 1 "Long" 1 1 1] = (0, 0, 0) :=
  ⟨by decide, get_position_absent _ (by decide)⟩

/-- C9: every run of `main` — success with a trade, no-op decision,
falsy or failed session token, order-submission failure, or any other
exception inside the run — produces exactly one notifier invocation
in its event trace. -/
theorem main_notifies_exactly_once (o : RunOracle) :
    (main_run o).countP isNotify = 1 := by
  obtain ⟨tok, reb, ord⟩ := o
  rcases tok with e | t
  · rfl
  · cases h : token_truthy t with
    | false => simp only [main_run, h]; rfl
    | true =>
      rcases reb with e | ⟨act, n⟩
      · simp only [main_run, h]
        rfl
      · rcases act with _ | a
        · simp only [main_run, h]
          rfl
        · rcases ord with e | r
          · simp only [main_run, h]
            rfl
          · simp only [main_run, h]
            rfl

/-- C3: `is_last_trading_day` returns true exactly when today is
itself a valid trading day of the injected calendar and today is the
last element of the valid trading days from today through the first
day of the next month inclusive. -/
theorem is_last_trading_day_iff (cal : Date → Bool) (today : Date) :
    is_last_trading_day cal today = true ↔
      cal today = true ∧
        (valid_days cal today (next_month_first today)).getLast? = some today := by
  simp only [is_last_trading_day, Bool.and_eq_true, decide_eq_true_eq]
  constructor
  · rintro ⟨hmem, hlast⟩
    exact ⟨(List.mem_filter.mp hmem).2, hlast⟩
  · rintro ⟨hcal, hlast⟩
    refine ⟨List.mem_filter.mpr ⟨?_, hcal⟩, hlast⟩
    exact self_mem_dateRange 40 (by decide) today _

/-- C2 (the code evaluated at a failing input): under the injected
calendar `demo2025Cal`, 2025-04-30 is a valid trading day and is the
calendar's last valid trading day of April 2025, yet
`is_last_trading_day` returns false on every one of the 30 days of
April 2025 — the gate never fires that month, because the valid-days
range extends through 2025-05-01, which is itself a trading day. -/
theorem is_last_trading_day_misses_april_2025 :
    demo2025Cal ⟨2025, 4, 30⟩ = true ∧
    dateRange 40 ⟨2025, 4, 1⟩ ⟨2025, 4, 30⟩ = april2025 ∧
    (april2025.filter demo2025Cal).getLast? = some ⟨2025, 4, 30⟩ ∧
    april2025.all (fun d => !(is_last_trading_day demo2025Cal d)) = true :=
  ⟨by decide, by decide, by decide, by decide⟩

end TqqqTasty
